import Mathlib

/-!
Verification of the `empathy` connect-proxy route handler
(`src/web/src/app/api/connect/route.ts`) against its specification.

The handler reads two environment values (`PIPECAT_API_KEY`,
`PIPECAT_API_URL`), rejects falsy values (`!apiKey` in JavaScript is true
for `undefined` and for the empty string), performs a single outbound
`fetch` POST, renames the upstream JSON fields `dailyRoom`/`dailyToken`
into `url`/`token`, and collapses every internal fault at the single
`catch` boundary into `500 \x7b"error": "Failed to connect to Pipecat
service"\x7d`.

The embedding below is a direct translation of the handler: the `try`
body becomes `tryConnect`, an `Except Fault`-valued function that also
records the list of outbound requests actually issued; the `catch`
boundary becomes `POST`, which maps any fault to the uniform error
response. `POSTrun` wraps the same body in an explicit process state
(environment map plus server-side log) to state the statelessness claim.
-/

/-- A JavaScript value obtained from `JSON.parse` / `response.json()`.
Objects are association lists of string keys (a parsed object has no
duplicate keys). -/
inductive Json where
  | null : Json
  | bool (b : Bool) : Json
  | num (n : Int) : Json
  | str (s : String) : Json
  | arr (elems : List Json) : Json
  | obj (fields : List (String × Json)) : Json

/-- Internal faults thrown inside the handler's `try` block, one per
`throw` site plus the two runtime-generated fault kinds (a network-level
`fetch` rejection and a JSON parse failure), plus the TypeError raised by
a property access on `null`. -/
inductive Fault where
  | config (name : String) : Fault
  | transport (msg : String) : Fault
  | upstream (status : Nat) (statusText : String) (body : String) : Fault
  | parse : Fault
  | nullAccess : Fault

/-- Outcome of the outbound `fetch` call: either a network-level fault
(the promise rejects) or a response with a status code, status text, a
body as text, and the result of parsing that body as JSON (`none` when
the body is not parsable). -/
inductive FetchOutcome where
  | fault (msg : String) : FetchOutcome
  | response (status : Nat) (statusText : String) (bodyText : String)
      (bodyJson : Option Json) : FetchOutcome

/-- An outbound HTTP request as assembled by the handler's `fetch` call. -/
structure Request where
  url : String
  method : String
  headers : List (String × String)
  body : String

/-- Body of the handler's own HTTP response: on success the object
`\x7burl, token\x7d` whose fields are absent (`none`) when the upstream value
was `undefined` (omitted by `JSON.stringify`); on failure the object
`\x7b"error": msg\x7d`. -/
inductive RespBody where
  | success (url : Option Json) (token : Option Json) : RespBody
  | error (msg : String) : RespBody

/-- The handler's HTTP response: a status code and a JSON body. -/
structure HandlerResponse where
  status : Nat
  body : RespBody

/-- JavaScript truthiness test `!v` for `v : string | undefined`: true
exactly for `undefined` and for the empty string. -/
def isFalsy : Option String → Bool
  | none => true
  | some s => s == ""

/-- First-match association-list lookup, the shape of a parsed JSON
object's fields (a parsed object has no duplicate keys). -/
def lookupField : List (String × Json) → String → Option Json
  | [], _ => none
  | (k, v) :: rest, key => if k = key then some v else lookupField rest key

/-- JavaScript property access `data.key` on a parsed JSON value:
throws a TypeError on `null`, returns the field (or `undefined`, modelled
`none`) on an object, and `undefined` on every other value. -/
def jsGetField : Json → String → Except Fault (Option Json)
  | Json.null, _ => Except.error Fault.nullAccess
  | Json.obj fields, key => Except.ok (lookupField fields key)
  | _, _ => Except.ok none

/-- The WHATWG fetch `Response.ok` flag: status in the range 200–299. -/
def responseOk (status : Nat) : Bool :=
  200 ≤ status && status ≤ 299

/-- The single outbound request the handler assembles:
`fetch(apiUrl, \x7b method: "POST", headers: \x7b Authorization, Content-Type \x7d,
body: JSON.stringify(\x7b createDailyRoom: true \x7d) \x7d)`. -/
def connectRequest (url key : String) : Request :=
  { url := url
    method := "POST"
    headers :=
      [("Authorization", "Bearer " ++ key),
       ("Content-Type", "application/json")]
    body := "\x7b\"createDailyRoom\":true\x7d" }

/-- The generic error response produced at the `catch` boundary:
`500 \x7b"error": "Failed to connect to Pipecat service"\x7d`. -/
def errorResponse : HandlerResponse :=
  { status := 500
    body := RespBody.error "Failed to connect to Pipecat service" }

/-- The body of the handler's `try` block, given the two environment
values and the outcome of the outbound call. Returns the response or the
fault that was thrown, together with the list of outbound requests
actually issued (empty when the configuration check throws before
`fetch`). -/
def tryConnect (apiKey apiUrl : Option String) (upstream : FetchOutcome) :
    Except Fault HandlerResponse × List Request :=
  if isFalsy apiKey then
    (Except.error (Fault.config "PIPECAT_API_KEY"), [])
  else if isFalsy apiUrl then
    (Except.error (Fault.config "PIPECAT_API_URL"), [])
  else
    let key := apiKey.getD ""
    let url := apiUrl.getD ""
    let req := connectRequest url key
    match upstream with
    | FetchOutcome.fault msg => (Except.error (Fault.transport msg), [req])
    | FetchOutcome.response status statusText bodyText bodyJson =>
      if !(responseOk status) then
        (Except.error (Fault.upstream status statusText bodyText), [req])
      else
        match bodyJson with
        | none => (Except.error Fault.parse, [req])
        | some data =>
          match jsGetField data "dailyRoom" with
          | Except.error e => (Except.error e, [req])
          | Except.ok urlField =>
            match jsGetField data "dailyToken" with
            | Except.error e => (Except.error e, [req])
            | Except.ok tokenField =>
              (Except.ok
                { status := 200
                  body := RespBody.success urlField tokenField }, [req])

/-- The exported handler `POST`: the `try` body with its single `catch`
boundary, which converts every fault into `errorResponse`. Returns the
response together with the outbound requests issued. -/
def POST (apiKey apiUrl : Option String) (upstream : FetchOutcome) :
    HandlerResponse × List Request :=
  match tryConnect apiKey apiUrl upstream with
  | (Except.ok resp, calls) => (resp, calls)
  | (Except.error _, calls) => (errorResponse, calls)

/-- Process-wide state visible to the handler: the read-only environment
and the server-side log (`console.error` appends the caught fault). -/
structure World where
  env : String → Option String
  log : List Fault

/-- Result of running the handler in an explicit process state. -/
structure RunResult where
  resp : HandlerResponse
  calls : List Request
  world : World

/-- The handler run against an explicit process state: it reads the two
environment values fresh from `process.env`, and its only write to
process state is the `console.error` log entry on the failure path. -/
def POSTrun (w : World) (upstream : FetchOutcome) : RunResult :=
  match tryConnect (w.env "PIPECAT_API_KEY") (w.env "PIPECAT_API_URL") upstream with
  | (Except.ok resp, calls) => ⟨resp, calls, w⟩
  | (Except.error f, calls) =>
      ⟨errorResponse, calls, { w with log := w.log ++ [f] }⟩

/-! ## Helper lemmas -/

/-- Whenever the `try` body returns normally, the response it built has
status 200 (the only normal return is `NextResponse.json` with the
default status). -/
theorem tryConnect_ok_status (key url : Option String) (f : FetchOutcome)
    (resp : HandlerResponse) (calls : List Request)
    (h : tryConnect key url f = (Except.ok resp, calls)) :
    resp.status = 200 := by
  unfold tryConnect at h
  repeat' split at h
  all_goals simp at h
  rw [← h.1]

/-- Every run of the handler produces either the one generic error
response or a status-200 success. -/
theorem post_cases (key url : Option String) (f : FetchOutcome) :
    (POST key url f).fst = errorResponse ∨ (POST key url f).fst.status = 200 := by
  unfold POST
  rcases htc : tryConnect key url f with ⟨res, calls⟩
  cases res with
  | error e => simp
  | ok resp => exact Or.inr (by simpa using tryConnect_ok_status key url f resp calls htc)

/-! ## Claims -/

/-- Claim C1, counterexample. The claim says: whenever both configuration
values are set and the upstream POST returns 200 with
`\x7b"dailyRoom": "U", "dailyToken": "T"\x7d`, the handler returns 200. It fails
when `PIPECAT_API_KEY` is set to the empty string: the value is set, but
the handler's JavaScript falsiness check rejects it and the handler
returns 500, never reaching the upstream response. -/
theorem c1_counterexample :
    (POST (some "") (some "https://api.example.test/start")
      (FetchOutcome.response 200 "OK" "body"
        (some (Json.obj
          [("dailyRoom", Json.str "U"),
           ("dailyToken", Json.str "T")])))).fst.status ≠ 200 := by
  decide

/-- Claim C1, amended: whenever both configuration values are set to
NON-EMPTY strings and the upstream POST returns 200 with
`\x7b"dailyRoom": "U", "dailyToken": "T"\x7d`, the handler returns 200 with body
exactly `\x7b"url": "U", "token": "T"\x7d`, obtained solely by renaming the two
fields, after exactly one outbound request. -/
theorem c1_rename_success (k u U T statusText bodyText : String)
    (hk : k ≠ "") (hu : u ≠ "") :
    POST (some k) (some u)
      (FetchOutcome.response 200 statusText bodyText
        (some (Json.obj
          [("dailyRoom", Json.str U),
           ("dailyToken", Json.str T)]))) =
    ({ status := 200,
       body := RespBody.success (some (Json.str U)) (some (Json.str T)) },
     [connectRequest u k]) := by
  have hk2 : isFalsy (some k) = false := by simp [isFalsy, hk]
  have hu2 : isFalsy (some u) = false := by simp [isFalsy, hu]
  unfold POST tryConnect
  rw [hk2, hu2]
  rfl

/-- Claim C1, witness: the amended theorem applied at concrete values. -/
theorem c1_witness :
    POST (some "secret-key") (some "https://api.example.test/start")
      (FetchOutcome.response 200 "OK" "body"
        (some (Json.obj
          [("dailyRoom", Json.str "U"),
           ("dailyToken", Json.str "T")]))) =
    ({ status := 200,
       body := RespBody.success (some (Json.str "U")) (some (Json.str "T")) },
     [connectRequest "https://api.example.test/start" "secret-key"]) :=
  c1_rename_success "secret-key" "https://api.example.test/start" "U" "T"
    "OK" "body" (by decide) (by decide)

/-- Claim C2: whenever `PIPECAT_API_KEY` is unset (regardless of
`PIPECAT_API_URL`) or `PIPECAT_API_URL` is unset, the handler returns
`500 \x7b"error": "Failed to connect to Pipecat service"\x7d` and the fetch is
never invoked (the list of outbound requests is empty). -/
theorem c2_missing_config (key url : Option String) (f : FetchOutcome)
    (h : key = none ∨ url = none) :
    POST key url f = (errorResponse, []) := by
  rcases h with h | h
  · subst h; rfl
  · subst h
    unfold POST tryConnect
    cases key with
    | none => rfl
    | some s =>
      by_cases hs : s = ""
      · subst hs; rfl
      · simp [isFalsy, hs, errorResponse]

/-- Claim C2, witness: the theorem applied with the key unset. -/
theorem c2_witness :
    POST none (some "https://api.example.test/start")
      (FetchOutcome.fault "connection refused") = (errorResponse, []) :=
  c2_missing_config none (some "https://api.example.test/start")
    (FetchOutcome.fault "connection refused") (Or.inl rfl)

/-- Claim C3, counterexample. The claim says: whenever both configuration
values are set and the upstream returns a non-2xx status, the outbound
call is attempted exactly once. It fails when `PIPECAT_API_KEY` is set to
the empty string: the falsiness check throws before `fetch`, so zero
outbound calls are made. -/
theorem c3_counterexample :
    ((POST (some "") (some "https://api.example.test/one")
      (FetchOutcome.response 403 "Forbidden" "forbidden" none)).snd).length ≠ 1 := by
  decide

/-- Claim C3, amended: whenever both configuration values are set to
NON-EMPTY strings and the upstream returns any non-2xx status, the
handler returns `500 \x7b"error": "Failed to connect to Pipecat service"\x7d`
and the outbound call was attempted exactly once. -/
theorem c3_non2xx_error (k u statusText bodyText : String) (st : Nat)
    (bodyJson : Option Json) (hk : k ≠ "") (hu : u ≠ "")
    (hst : st < 200 ∨ 299 < st) :
    POST (some k) (some u)
      (FetchOutcome.response st statusText bodyText bodyJson) =
    (errorResponse, [connectRequest u k]) := by
  have hok : responseOk st = false := by
    simp only [responseOk, Bool.and_eq_false_iff, decide_eq_false_iff_not, Nat.not_le]
    omega
  have hk2 : isFalsy (some k) = false := by simp [isFalsy, hk]
  have hu2 : isFalsy (some u) = false := by simp [isFalsy, hu]
  simp [POST, tryConnect, hk2, hu2, hok]

/-- Claim C3, witness: the amended theorem applied at a 403 upstream
response with body "forbidden". -/
theorem c3_witness :
    POST (some "secret-key") (some "https://api.example.test/one")
      (FetchOutcome.response 403 "Forbidden" "forbidden" none) =
    (errorResponse, [connectRequest "https://api.example.test/one" "secret-key"]) :=
  c3_non2xx_error "secret-key" "https://api.example.test/one" "Forbidden"
    "forbidden" 403 none (by decide) (by decide) (by omega)

/-- Claim C4: any two failing runs of the handler (whatever the failure
kind: missing configuration, network fault, non-2xx upstream status, or
unparsable body) produce the same response, and that response is exactly
`500 \x7b"error": "Failed to connect to Pipecat service"\x7d` — the external
response never depends on, or reveals, which failure occurred. -/
theorem c4_uniform_failure (k1 u1 : Option String) (f1 : FetchOutcome)
    (k2 u2 : Option String) (f2 : FetchOutcome)
    (h1 : (POST k1 u1 f1).fst.status ≠ 200)
    (h2 : (POST k2 u2 f2).fst.status ≠ 200) :
    (POST k1 u1 f1).fst = errorResponse ∧
    (POST k1 u1 f1).fst = (POST k2 u2 f2).fst := by
  have e1 := (post_cases k1 u1 f1).resolve_right h1
  have e2 := (post_cases k2 u2 f2).resolve_right h2
  exact ⟨e1, e1.trans e2.symm⟩

/-- Claim C4, witness: a missing-configuration failure and a non-2xx
upstream failure produce the identical generic response. -/
theorem c4_witness :
    (POST none none (FetchOutcome.fault "connection refused")).fst = errorResponse ∧
    (POST none none (FetchOutcome.fault "connection refused")).fst =
      (POST (some "secret-key") (some "https://api.example.test/two")
        (FetchOutcome.response 503 "Service Unavailable" "oops" none)).fst :=
  c4_uniform_failure none none (FetchOutcome.fault "connection refused")
    (some "secret-key") (some "https://api.example.test/two")
    (FetchOutcome.response 503 "Service Unavailable" "oops" none)
    (by decide) (by decide)

/-- Claim C5: whenever both configuration values are set and the
upstream returns a 2xx status whose body is not parsable as JSON, the
handler returns `500 \x7b"error": "Failed to connect to Pipecat service"\x7d`
(the parse fault is caught at the boundary). -/
theorem c5_unparsable_body (k u statusText bodyText : String) (st : Nat)
    (h1 : 200 ≤ st) (h2 : st ≤ 299) :
    (POST (some k) (some u)
      (FetchOutcome.response st statusText bodyText none)).fst = errorResponse := by
  have hok : responseOk st = true := by
    simp only [responseOk, Bool.and_eq_true, decide_eq_true_eq]
    omega
  rcases eq_or_ne k "" with hk | hk
  · subst hk; rfl
  · rcases eq_or_ne u "" with hu | hu
    · subst hu
      simp [POST, tryConnect, isFalsy, hk]
    · have hk2 : isFalsy (some k) = false := by simp [isFalsy, hk]
      have hu2 : isFalsy (some u) = false := by simp [isFalsy, hu]
      simp [POST, tryConnect, hk2, hu2, hok]

/-- Claim C5, witness: the theorem applied at a 200 upstream response
whose body failed to parse. -/
theorem c5_witness :
    (POST (some "secret-key") (some "https://api.example.test/three")
      (FetchOutcome.response 200 "OK" "not-json" none)).fst = errorResponse :=
  c5_unparsable_body "secret-key" "https://api.example.test/three" "OK"
    "not-json" 200 (by decide) (by decide)

/-- Claim C6, counterexample. The claim says: whenever both configuration
values are set and the upstream returns 200 with a JSON object body
missing the two fields, the handler returns 200 with the fields absent.
It fails when `PIPECAT_API_KEY` is set to the empty string: the falsiness
check throws and the handler returns 500, not 200. -/
theorem c6_counterexample :
    (POST (some "") (some "https://api.example.test/four")
      (FetchOutcome.response 200 "OK" "\x7b\x7d"
        (some (Json.obj [])))).fst.status ≠ 200 := by
  decide

/-- Claim C6, amended: whenever both configuration values are set to
NON-EMPTY strings and the upstream returns 200 with any JSON object body,
the handler returns 200 whose `url` and `token` fields are the literal
lookups of `dailyRoom` and `dailyToken` — absent (`none`) exactly when
the field is missing, with no shape validation. -/
theorem c6_literal_field_access (k u statusText bodyText : String)
    (fields : List (String × Json)) (hk : k ≠ "") (hu : u ≠ "") :
    POST (some k) (some u)
      (FetchOutcome.response 200 statusText bodyText (some (Json.obj fields))) =
    ({ status := 200,
       body := RespBody.success (lookupField fields "dailyRoom")
                 (lookupField fields "dailyToken") },
     [connectRequest u k]) := by
  have hk2 : isFalsy (some k) = false := by simp [isFalsy, hk]
  have hu2 : isFalsy (some u) = false := by simp [isFalsy, hu]
  unfold POST tryConnect
  rw [hk2, hu2]
  rfl

/-- Claim C6, witness: the amended theorem applied at an empty object
body, yielding 200 with both fields absent. -/
theorem c6_witness :
    POST (some "secret-key") (some "https://api.example.test/four")
      (FetchOutcome.response 200 "OK" "\x7b\x7d" (some (Json.obj []))) =
    ({ status := 200, body := RespBody.success none none },
     [connectRequest "https://api.example.test/four" "secret-key"]) :=
  c6_literal_field_access "secret-key" "https://api.example.test/four"
    "OK" "\x7b\x7d" [] (by decide) (by decide)

/-- Claim C7, counterexample. The claim says: whenever both configuration
values are set, the single outbound request carries the bearer key and
the fixed body. It fails when `PIPECAT_API_KEY` is set to the empty
string: no outbound request is made at all. -/
theorem c7_counterexample :
    ((POST (some "") (some "https://api.example.test/five")
      (FetchOutcome.fault "connection refused")).snd).length ≠ 1 := by
  decide

/-- Claim C7, amended: whenever both configuration values are set to
NON-EMPTY strings, exactly one outbound request is issued, whatever the
upstream outcome, and it is a POST to the configured URL with headers
`Authorization: Bearer <key>` and `Content-Type: application/json` and
body `\x7b"createDailyRoom":true\x7d` (this is `connectRequest u k`). -/
theorem c7_outbound_request (k u : String) (f : FetchOutcome)
    (hk : k ≠ "") (hu : u ≠ "") :
    (POST (some k) (some u) f).snd = [connectRequest u k] := by
  have hk2 : isFalsy (some k) = false := by simp [isFalsy, hk]
  have hu2 : isFalsy (some u) = false := by simp [isFalsy, hu]
  unfold POST tryConnect
  rw [hk2, hu2]
  cases f with
  | fault msg => rfl
  | response st statusText bodyText bodyJson =>
    by_cases hok : responseOk st = true
    · cases bodyJson with
      | none => simp [hok]
      | some data =>
        rcases hr : jsGetField data "dailyRoom" with e | urlField
        · simp [hok, hr]
        · rcases ht : jsGetField data "dailyToken" with e | tokenField
          · simp [hok, hr, ht]
          · simp [hok, hr, ht]
    · have hok2 : responseOk st = false := by
        cases h : responseOk st
        · rfl
        · exact absurd h hok
      simp [hok2]

/-- Claim C7, witness: the amended theorem applied at concrete
configuration, spelling the single request out in full. -/
theorem c7_witness :
    (POST (some "secret-key") (some "https://api.example.test/five")
      (FetchOutcome.fault "connection refused")).snd =
    [{ url := "https://api.example.test/five"
       method := "POST"
       headers :=
         [("Authorization", "Bearer secret-key"),
          ("Content-Type", "application/json")]
       body := "\x7b\"createDailyRoom\":true\x7d" }] :=
  c7_outbound_request "secret-key" "https://api.example.test/five"
    (FetchOutcome.fault "connection refused") (by decide) (by decide)

/-- Claim C8: the handler is stateless and deterministic. Two runs
against process states agreeing on the two configuration values, given
the same upstream outcome, produce identical responses and identical
outbound calls (in particular the result does not depend on the log or
any other state), and a run never modifies the environment. -/
theorem c8_stateless_deterministic (w1 w2 : World) (f : FetchOutcome)
    (hk : w1.env "PIPECAT_API_KEY" = w2.env "PIPECAT_API_KEY")
    (hu : w1.env "PIPECAT_API_URL" = w2.env "PIPECAT_API_URL") :
    (POSTrun w1 f).resp = (POSTrun w2 f).resp ∧
    (POSTrun w1 f).calls = (POSTrun w2 f).calls ∧
    (POSTrun w1 f).world.env = w1.env := by
  unfold POSTrun
  rw [hk, hu]
  rcases h : tryConnect (w2.env "PIPECAT_API_KEY") (w2.env "PIPECAT_API_URL") f
    with ⟨res, calls⟩
  cases res <;> simp

/-- Claim C8, witness: two worlds with the same configuration but
different logs produce identical responses and calls, and the
environment is untouched. -/
theorem c8_witness :
    (POSTrun
      ⟨fun n => if n = "PIPECAT_API_KEY" then some "secret-key"
        else if n = "PIPECAT_API_URL" then some "https://api.example.test/six"
        else none, []⟩
      (FetchOutcome.fault "connection refused")).resp =
    (POSTrun
      ⟨fun n => if n = "PIPECAT_API_KEY" then some "secret-key"
        else if n = "PIPECAT_API_URL" then some "https://api.example.test/six"
        else none, [Fault.parse]⟩
      (FetchOutcome.fault "connection refused")).resp ∧
    (POSTrun
      ⟨fun n => if n = "PIPECAT_API_KEY" then some "secret-key"
        else if n = "PIPECAT_API_URL" then some "https://api.example.test/six"
        else none, []⟩
      (FetchOutcome.fault "connection refused")).calls =
    (POSTrun
      ⟨fun n => if n = "PIPECAT_API_KEY" then some "secret-key"
        else if n = "PIPECAT_API_URL" then some "https://api.example.test/six"
        else none, [Fault.parse]⟩
      (FetchOutcome.fault "connection refused")).calls ∧
    (POSTrun
      ⟨fun n => if n = "PIPECAT_API_KEY" then some "secret-key"
        else if n = "PIPECAT_API_URL" then some "https://api.example.test/six"
        else none, []⟩
      (FetchOutcome.fault "connection refused")).world.env =
    (⟨fun n => if n = "PIPECAT_API_KEY" then some "secret-key"
        else if n = "PIPECAT_API_URL" then some "https://api.example.test/six"
        else none, []⟩ : World).env :=
  c8_stateless_deterministic _ _ (FetchOutcome.fault "connection refused")
    rfl rfl

/-- Claim C9: the handler is total at its boundary — for every
configuration state and every upstream outcome it returns a response
(never propagates a fault), and that response's status is 200 or 500. -/
theorem c9_total_boundary (key url : Option String) (f : FetchOutcome) :
    (POST key url f).fst.status = 200 ∨ (POST key url f).fst.status = 500 := by
  rcases post_cases key url f with h | h
  · right; rw [h]; rfl
  · left; exact h

/-- Claim C10, counterexample. The claim says: any upstream 2xx response
with a JSON-parsable body takes the success path and yields 200. It fails
for the parsable body `null`: the property access `data.dailyRoom` throws
a TypeError on `null`, so the handler returns 500. -/
theorem c10_counterexample :
    (POST (some "secret-key") (some "https://api.example.test/seven")
      (FetchOutcome.response 200 "OK" "null" (some Json.null))).fst.status ≠ 200 := by
  decide

/-- Claim C10, amended: with both configuration values set to non-empty
strings, for every upstream response with a status in 200–299 and a
JSON-parsable body whose parsed value is not `null`, the handler takes
the success path and its own status is exactly 200 (an upstream 201 still
yields 200). -/
theorem c10_success_range (k u statusText bodyText : String) (st : Nat)
    (j : Json) (hk : k ≠ "") (hu : u ≠ "") (h1 : 200 ≤ st) (h2 : st ≤ 299)
    (hj : j ≠ Json.null) :
    (POST (some k) (some u)
      (FetchOutcome.response st statusText bodyText (some j))).fst.status = 200 := by
  have hok : responseOk st = true := by
    simp only [responseOk, Bool.and_eq_true, decide_eq_true_eq]
    omega
  have hk2 : isFalsy (some k) = false := by simp [isFalsy, hk]
  have hu2 : isFalsy (some u) = false := by simp [isFalsy, hu]
  cases j with
  | null => exact absurd rfl hj
  | bool b => simp [POST, tryConnect, hk2, hu2, hok, jsGetField]
  | num n => simp [POST, tryConnect, hk2, hu2, hok, jsGetField]
  | str s => simp [POST, tryConnect, hk2, hu2, hok, jsGetField]
  | arr elems => simp [POST, tryConnect, hk2, hu2, hok, jsGetField]
  | obj fields => simp [POST, tryConnect, hk2, hu2, hok, jsGetField]

/-- Claim C10, witness: an upstream 201 with an object body yields
status 200. -/
theorem c10_witness :
    (POST (some "secret-key") (some "https://api.example.test/seven")
      (FetchOutcome.response 201 "Created" "\x7b\x7d"
        (some (Json.obj [])))).fst.status = 200 :=
  c10_success_range "secret-key" "https://api.example.test/seven" "Created"
    "\x7b\x7d" 201 (Json.obj []) (by decide) (by decide) (by decide) (by decide)
    (fun h => Json.noConfusion h)
